import Mathlib

/-!
Shallow embedding of the conversational task-management core of the
`physical-ai-todo` repository (backend/app): the MCP tool handlers
(`app/mcp/tools.py`), the CRUD helpers they call (`app/crud.py`), and the
agent loop (`app/chat/agent.py`).

Strings are modelled as `List Char` (`Str`); Python's `str.lower` becomes a
`Char.toLower` map, Python's `a in b` substring test becomes `containsSub`,
and SQL `ILIKE '%q%'` (for wildcard-free `q`) becomes case-insensitive
substring containment.  Database tables become in-memory lists carried in a
`Store` record; SQL `ORDER BY created_at DESC` becomes an insertion sort on
the `created_at` key.  Fields of the rows that no modelled code path reads
(tags, due dates, reminder data, `updated_at`, timestamps on notifications)
are omitted.  Decorative emoji prefixes of some user-facing messages (which
appear as mojibake bytes in the source) are elided from the modelled
message texts; the informative part of each message is modelled verbatim.
-/

namespace Todo

/-- Python strings, modelled as lists of characters. -/
abbrev Str := List Char

/-- A single-quote character (used when building user-facing messages). -/
def sq : Char := '\''

/-- A double-quote character (used when building user-facing messages). -/
def dq : Char := '\"'

/-- Python `str.lower`, character-wise. -/
def lower (s : Str) : Str := s.map Char.toLower

/-- `startsWithL needle hay`: `needle` occurs at the start of `hay`. -/
def startsWithL : Str → Str → Bool
  | [], _ => true
  | _ :: _, [] => false
  | a :: as, b :: bs => a == b && startsWithL as bs

/-- Python `needle in hay` (substring containment). -/
def containsSub (needle : Str) : Str → Bool
  | [] => needle.isEmpty
  | c :: rest => startsWithL needle (c :: rest) || containsSub needle rest

/-- Decimal digits accumulator for `natToStr` (fuel-structural so that it
reduces in the kernel). -/
def natToStrGo : Nat → Nat → Str → Str
  | 0, _, acc => acc
  | fuel + 1, n, acc =>
      if n = 0 then acc else natToStrGo fuel (n / 10) (Char.ofNat (48 + n % 10) :: acc)

/-- Python `str(n)` for a natural number. -/
def natToStr (n : Nat) : Str :=
  if n = 0 then ['0'] else natToStrGo (n + 1) n []

/-- Python `"\n".join`. -/
def joinLines : List Str → Str
  | [] => []
  | [s] => s
  | s :: rest => s ++ '\n' :: joinLines rest

/-- Row of the `tasks` table, restricted to the columns the modelled code
paths read (`app/models.py` / `app/crud.py`). -/
structure Task where
  id : Nat
  user_id : Nat
  title : Str
  description : Str
  priority : Str
  completed : Bool
  created_at : Nat
deriving DecidableEq, Repr

/-- Row of the `notifications` table, restricted to the columns the claims
concern.  The decorative `title` column (an emoji-prefixed heading) and the
`created_at` timestamp are not modelled. -/
structure Notification where
  user_id : Nat
  task_id : Nat
  type : Str
  message : Str
  is_read : Bool
deriving DecidableEq, Repr

/-- The database state threaded through the tools: the `tasks` and
`notifications` tables, plus `nextId`/`clock` standing for the
database-generated primary key and `datetime.utcnow()`. -/
structure Store where
  tasks : List Task
  notifications : List Notification
  nextId : Nat
  clock : Nat
deriving DecidableEq, Repr

/-- `ORDER BY created_at DESC`: newest first. -/
def sortByCreatedDesc (ts : List Task) : List Task :=
  List.insertionSort (fun a b => b.created_at ≤ a.created_at) ts

/-- `crud.list_tasks` (crud.py:58-131), specialised to the configuration the
MCP tools use: filter by owner, optional case-insensitive substring search
over title and description (SQL `ILIKE '%q%'`; SQL wildcard characters
inside `q` are not modelled), optional completion filter, optional priority
filter, sort `created_at DESC`, then `LIMIT limit` (offset 0).  Only the
task list component of the Python `(tasks, total)` pair is returned; the
`total` count is `(filtered list).length` and is computed at use sites. -/
def list_tasks (tasks : List Task) (user_id : Nat) (limit : Nat)
    (search : Option Str) (completed : Option Bool) (priority : Option Str) :
    List Task :=
  let q1 := tasks.filter (fun t => t.user_id == user_id)
  let q2 := match search with
    | none => q1
    | some s => q1.filter (fun t =>
        containsSub (lower s) (lower t.title) ||
        containsSub (lower s) (lower t.description))
  let q3 := match completed with
    | none => q2
    | some b => q2.filter (fun t => t.completed == b)
  let q4 := match priority with
    | none => q3
    | some p => q3.filter (fun t => t.priority == p)
  (sortByCreatedDesc q4).take limit

/-- The pre-limit filtered set backing a title search (used to state when
the `LIMIT 100` in the tools' prefetch is not binding). -/
def titleSearchPool (tasks : List Task) (user_id : Nat) (q : Str)
    (completedFilter : Option Bool) : List Task :=
  let q1 := tasks.filter (fun t => t.user_id == user_id)
  let q2 := q1.filter (fun t =>
      containsSub (lower q) (lower t.title) ||
      containsSub (lower q) (lower t.description))
  match completedFilter with
  | none => q2
  | some b => q2.filter (fun t => t.completed == b)

/-- Outcome of resolving a task by title. -/
inductive TitleResolution where
  | resolved (t : Task)
  | ambiguous (cands : List Task)
  | notFound
deriving DecidableEq, Repr

/-- The two-pass title resolution shared by `complete_task_tool`,
`delete_task_tool` and `update_task_tool` (tools.py:168-197, 274-307,
403-431): prefetch the user's tasks with `list_tasks(limit=100, search=q)`
(plus `completed=False` for the complete tool), take the case-insensitively
exact title matches, fall back to case-insensitive substring matches on the
title only if there is no exact match, then classify by match count. -/
def resolve_by_title (tasks : List Task) (user_id : Nat) (q : Str)
    (completedFilter : Option Bool) : TitleResolution :=
  let fetched := list_tasks tasks user_id 100 (some q) completedFilter none
  let exactMatches := fetched.filter (fun t => lower t.title == lower q)
  let matching :=
    if exactMatches.isEmpty then
      fetched.filter (fun t => containsSub (lower q) (lower t.title))
    else exactMatches
  match matching with
  | [] => .notFound
  | [t] => .resolved t
  | ts => .ambiguous ts

/-- `crud.get_task` (crud.py:134-146): look a task up by primary key.
`scalar_one_or_none` is modelled as `find?` (primary keys are unique). -/
def get_task (tasks : List Task) (task_id : Nat) : Option Task :=
  tasks.find? (fun t => t.id == task_id)

/-- The optional fields of `schemas.TaskPatch` that the MCP tools set. -/
structure TaskPatch where
  title : Option Str := none
  description : Option Str := none
  priority : Option Str := none
  completed : Option Bool := none
deriving DecidableEq, Repr

/-- Apply the non-`None` fields of a patch to a task row
(crud.py:218-222). -/
def applyPatch (p : TaskPatch) (t : Task) : Task :=
  { t with
    title := p.title.getD t.title
    description := p.description.getD t.description
    priority := p.priority.getD t.priority
    completed := p.completed.getD t.completed }

/-- `crud.patch_task` (crud.py:199-251): fetch by id, update the provided
fields in place, return the updated row (`None` if absent).  The
reminder-recomputation block and `updated_at` touch concern columns not
modelled here. -/
def patch_task (tasks : List Task) (task_id : Nat) (p : TaskPatch) :
    Option (List Task × Task) :=
  match get_task tasks task_id with
  | none => none
  | some t =>
      let t' := applyPatch p t
      some (tasks.map (fun u => if u.id == task_id then t' else u), t')

/-- `crud.delete_task` (crud.py:254-272): delete by id, report whether a
row was found. -/
def crud_delete_task (tasks : List Task) (task_id : Nat) : List Task × Bool :=
  match get_task tasks task_id with
  | none => (tasks, false)
  | some _ => (tasks.filter (fun t => !(t.id == task_id)), true)

/-- The result dictionary every MCP tool returns, modelled as a record with
one `Option` field per dictionary key that may be present or absent
(`none` = key absent).  The `success` key is present in every return
dictionary of tools.py and agent.py, hence a plain `Bool`. -/
structure Envelope where
  success : Bool
  error : Option Str := none
  message : Option Str := none
  task_id : Option Nat := none
  title : Option Str := none
  description : Option Str := none
  priority : Option Str := none
  completed : Option Bool := none
  tasks : Option (List Task) := none
  total : Option Nat := none
  count : Option Nat := none
deriving DecidableEq, Repr

/-- `AddTaskSchema` after validation (mcp/schemas.py:13-17). -/
structure AddTaskParams where
  user_id : Nat
  title : Str
  description : Str := []
  priority : Str := "medium".data
deriving DecidableEq, Repr

/-- `ListTasksSchema` after validation (mcp/schemas.py:20-31). -/
structure ListTasksParams where
  user_id : Nat
  status : Str := "all".data
  priority : Option Str := none
  limit : Nat := 50
deriving DecidableEq, Repr

/-- `CompleteTaskSchema` after validation (mcp/schemas.py:34-38). -/
structure CompleteTaskParams where
  user_id : Nat
  task_id : Option Nat := none
  task_title : Option Str := none
deriving DecidableEq, Repr

/-- `DeleteTaskSchema` after validation (mcp/schemas.py:41-45). -/
structure DeleteTaskParams where
  user_id : Nat
  task_id : Option Nat := none
  task_title : Option Str := none
deriving DecidableEq, Repr

/-- `UpdateTaskSchema` after validation (mcp/schemas.py:48-58). -/
structure UpdateTaskParams where
  user_id : Nat
  task_id : Option Nat := none
  task_title : Option Str := none
  title : Option Str := none
  description : Option Str := none
  priority : Option Str := none
deriving DecidableEq, Repr

/-- The `Found multiple tasks matching ...` failure envelope shared by the
three title-resolving tools (tools.py:188-194, 298-304, 422-428); `tail`
is the tool-specific closing sentence. -/
def ambiguousEnvelope (q : Str) (cands : List Task) (tail : Str) : Envelope :=
  { success := false
    error := some "Multiple matches".data
    message := some
      ("Found multiple tasks matching ".data ++ sq :: q ++ sq ::
        ":\n".data ++
        joinLines (cands.map (fun t =>
          "- ID ".data ++ natToStr t.id ++ ": ".data ++ t.title)) ++
        "\n\n".data ++ tail) }

/-- The `Task with ID ... not found` failure envelope (tools.py:209-214,
326-332, 443-448). -/
def notFoundByIdEnvelope (task_id : Nat) : Envelope :=
  { success := false
    error := some "Task not found".data
    message := some ("Task with ID ".data ++ natToStr task_id ++ " not found".data) }

/-- The permission-denied failure envelope; `verb` is `complete`, `delete`
or `update` (tools.py:216-221, 336-342, 450-455). -/
def permissionDeniedEnvelope (verb : Str) : Envelope :=
  { success := false
    error := some "Permission denied".data
    message := some
      ("You don".data ++ sq :: "t have permission to ".data ++ verb ++
        " this task".data) }

/-- `add_task` (tools.py:35-85): create the task (crud.py:19-55 assigns the
next primary key, `completed=False`, `created_at=utcnow`), record one
`task_created` notification, and return the success envelope.  The Python
`except` branch catches database errors, which have no counterpart in this
embedding. -/
def add_task (store : Store) (params : AddTaskParams) : Store × Envelope :=
  let task : Task :=
    { id := store.nextId
      user_id := params.user_id
      title := params.title
      description := params.description
      priority := params.priority
      completed := false
      created_at := store.clock }
  let notification : Notification :=
    { user_id := params.user_id
      task_id := task.id
      type := "task_created".data
      message := "Created task: ".data ++ dq :: task.title ++ [dq]
      is_read := false }
  ({ store with
      tasks := store.tasks ++ [task]
      notifications := store.notifications ++ [notification]
      nextId := store.nextId + 1
      clock := store.clock + 1 },
   { success := true
     task_id := some task.id
     title := some task.title
     description := some task.description
     priority := some task.priority
     message := some
       ("Task ".data ++ sq :: task.title ++ sq ::
         " created successfully with ID ".data ++ natToStr task.id) })

/-- `list_tasks_tool` (tools.py:88-148): map the `status` argument to a
completion filter, fetch, and return the formatted list. -/
def list_tasks_tool (store : Store) (params : ListTasksParams) :
    Store × Envelope :=
  let completed_filter : Option Bool :=
    if params.status == "pending".data then some false
    else if params.status == "completed".data then some true
    else none
  let fetched := list_tasks store.tasks params.user_id params.limit none
    completed_filter params.priority
  (store,
   { success := true
     tasks := some fetched
     total := some (match completed_filter, params.priority with
       | cf, pf =>
         ((store.tasks.filter (fun t => t.user_id == params.user_id)).filter
           (fun t => (match cf with | none => true | some b => t.completed == b) &&
             (match pf with | none => true | some p => t.priority == p))).length)
     count := some fetched.length
     message := some
       ("Found ".data ++ natToStr fetched.length ++ " ".data ++
         params.status ++ " task(s)".data) })

/-- Common tail of `complete_task_tool` after the task has been identified
(tools.py:209-246): existence check, ownership check, patch
`completed=True`, record one `task_completed` notification, and return the
success envelope.  The unreachable `patch_task = None` case corresponds to
the Python `except` branch (an attribute error on `None`). -/
def complete_task_finish (store : Store) (user_id : Nat)
    (task? : Option Task) (task_id_to_complete : Nat) : Store × Envelope :=
  match task? with
  | none => (store, notFoundByIdEnvelope task_id_to_complete)
  | some t =>
      if t.user_id != user_id then
        (store, permissionDeniedEnvelope "complete".data)
      else
        match patch_task store.tasks task_id_to_complete { completed := some true } with
        | none =>
            (store,
             { success := false
               error := some "patch failed".data
               message := some "Failed to complete task: patch failed".data })
        | some (tasks', updated) =>
            let notification : Notification :=
              { user_id := user_id
                task_id := updated.id
                type := "task_completed".data
                message := "Completed: ".data ++ dq :: updated.title ++ [dq]
                is_read := false }
            ({ store with
                tasks := tasks'
                notifications := store.notifications ++ [notification] },
             { success := true
               task_id := some updated.id
               title := some updated.title
               completed := some updated.completed
               message := some
                 ("Task ".data ++ sq :: updated.title ++ sq ::
                   " marked as complete!".data) })

/-- `complete_task_tool` (tools.py:151-252): resolve by title among the
user's *pending* tasks when `task_title` is given, else by id, then run the
common completion tail. -/
def complete_task_tool (store : Store) (params : CompleteTaskParams) :
    Store × Envelope :=
  match params.task_title with
  | some q =>
      match resolve_by_title store.tasks params.user_id q (some false) with
      | .notFound =>
          (store,
           { success := false
             error := some "Task not found".data
             message := some
               ("No pending task found with title matching ".data ++
                 sq :: q ++ [sq]) })
      | .ambiguous cands =>
          (store, ambiguousEnvelope q cands "Please use the task ID.".data)
      | .resolved t => complete_task_finish store params.user_id (some t) t.id
  | none =>
      match params.task_id with
      | some tid =>
          complete_task_finish store params.user_id (get_task store.tasks tid) tid
      | none =>
          (store,
           { success := false
             error := some "Missing parameter".data
             message := some "Please provide either task_id or task_title".data })

/-- Common tail of `delete_task_tool` after the task has been identified
(tools.py:325-377): existence check, ownership check, capture the title,
delete the row, then record one `task_deleted` notification carrying the
captured title. -/
def delete_task_finish (store : Store) (user_id : Nat)
    (task? : Option Task) (task_id_to_delete : Nat) : Store × Envelope :=
  match task? with
  | none => (store, notFoundByIdEnvelope task_id_to_delete)
  | some t =>
      if t.user_id != user_id then
        (store, permissionDeniedEnvelope "delete".data)
      else
        let task_title := t.title
        let deleted := crud_delete_task store.tasks task_id_to_delete
        if deleted.2 then
          let notification : Notification :=
            { user_id := user_id
              task_id := task_id_to_delete
              type := "task_deleted".data
              message := "Deleted: ".data ++ dq :: task_title ++ [dq]
              is_read := false }
          ({ store with
              tasks := deleted.1
              notifications := store.notifications ++ [notification] },
           { success := true
             task_id := some task_id_to_delete
             message := some
               ("Task ".data ++ sq :: task_title ++ sq ::
                 " deleted successfully!".data) })
        else
          ({ store with tasks := deleted.1 },
           { success := false
             error := some "Deletion failed".data
             message := some "Failed to delete task".data })

/-- `delete_task_tool` (tools.py:255-383): resolve by title among all of
the user's tasks when `task_title` is given, else by id, then run the
common deletion tail. -/
def delete_task_tool (store : Store) (params : DeleteTaskParams) :
    Store × Envelope :=
  match params.task_title with
  | some q =>
      match resolve_by_title store.tasks params.user_id q none with
      | .notFound =>
          (store,
           { success := false
             error := some "Task not found".data
             message := some
               ("No task found with title matching ".data ++ sq :: q ++ [sq]) })
      | .ambiguous cands =>
          (store, ambiguousEnvelope q cands "Please use the task ID to delete.".data)
      | .resolved t => delete_task_finish store params.user_id (some t) t.id
  | none =>
      match params.task_id with
      | some tid =>
          delete_task_finish store params.user_id (get_task store.tasks tid) tid
      | none =>
          (store,
           { success := false
             error := some "Missing parameter".data
             message := some "Please provide either task_id or task_title".data })

/-- Common tail of `update_task_tool` after the task has been identified
(tools.py:443-497): existence check, ownership check, build the patch from
the provided fields, reject an empty patch, apply it, then record one
`task_updated` notification carrying the updated title. -/
def update_task_finish (store : Store) (params : UpdateTaskParams)
    (task? : Option Task) (task_id_to_update : Nat) : Store × Envelope :=
  match task? with
  | none => (store, notFoundByIdEnvelope task_id_to_update)
  | some t =>
      if t.user_id != params.user_id then
        (store, permissionDeniedEnvelope "update".data)
      else if params.title == none && params.description == none &&
          params.priority == none then
        (store,
         { success := false
           error := some "No updates provided".data
           message := some "No fields to update".data })
      else
        match patch_task store.tasks task_id_to_update
            { title := params.title
              description := params.description
              priority := params.priority } with
        | none =>
            (store,
             { success := false
               error := some "patch failed".data
               message := some "Failed to update task: patch failed".data })
        | some (tasks', updated) =>
            let notification : Notification :=
              { user_id := params.user_id
                task_id := updated.id
                type := "task_updated".data
                message := "Updated: ".data ++ dq :: updated.title ++ [dq]
                is_read := false }
            ({ store with
                tasks := tasks'
                notifications := store.notifications ++ [notification] },
             { success := true
               task_id := some updated.id
               title := some updated.title
               description := some updated.description
               priority := some updated.priority
               message := some
                 ("Task ".data ++ sq :: updated.title ++ sq ::
                   " updated successfully".data) })

/-- `update_task_tool` (tools.py:386-503): resolve by title among all of
the user's tasks when `task_title` is given, else by id, then run the
common update tail. -/
def update_task_tool (store : Store) (params : UpdateTaskParams) :
    Store × Envelope :=
  match params.task_title with
  | some q =>
      match resolve_by_title store.tasks params.user_id q none with
      | .notFound =>
          (store,
           { success := false
             error := some "Task not found".data
             message := some
               ("No task found with title matching ".data ++ sq :: q ++ [sq]) })
      | .ambiguous cands =>
          (store, ambiguousEnvelope q cands "Please use the task ID.".data)
      | .resolved t => update_task_finish store params (some t) t.id
  | none =>
      match params.task_id with
      | some tid =>
          update_task_finish store params (get_task store.tasks tid) tid
      | none =>
          (store,
           { success := false
             error := some "Missing parameter".data
             message := some
               "Please provide either task_id or task_title to identify the task".data })

/-- A JSON value as it appears in a model-supplied tool-argument map.
Negative JSON integers are outside this model (no modelled id is ever
negative). -/
inductive JVal where
  | jint (n : Nat)
  | jstr (s : Str)
  | jbool (b : Bool)
  | jnull
deriving DecidableEq, Repr

/-- A tool-argument map (a Python dict in insertion order). -/
abbrev ArgMap := List (Str × JVal)

/-- Python `key in dict` / `dict[key]` combined: the value stored under a
key, if any. -/
def lookupArg (args : ArgMap) (k : Str) : Option JVal :=
  (args.find? (fun kv => kv.1 == k)).map (fun kv => kv.2)

/-- `ChatAgent.chat`, tools.py caller side (agent.py:195-200): inject the
authenticated user's id under `user_id` only when that key is absent; a
present value — whatever it is — is left untouched. -/
def inject_user_id (args : ArgMap) (user_id : Nat) : ArgMap :=
  if (lookupArg args "user_id".data).isSome then args
  else args ++ [("user_id".data, JVal.jint user_id)]

/-- Required integer field of a pydantic schema. -/
def reqNat (args : ArgMap) (k : Str) : Except Str Nat :=
  match lookupArg args k with
  | some (.jint n) => .ok n
  | _ => .error ("validation error: ".data ++ k)

/-- Optional positive-integer field (`gt=0`) of a pydantic schema. -/
def optPosNat (args : ArgMap) (k : Str) : Except Str (Option Nat) :=
  match lookupArg args k with
  | none => .ok none
  | some .jnull => .ok none
  | some (.jint n) =>
      if n > 0 then .ok (some n) else .error ("validation error: ".data ++ k)
  | some _ => .error ("validation error: ".data ++ k)

/-- Optional string field with a maximum length. -/
def optStrMax (args : ArgMap) (k : Str) (maxLen : Nat) :
    Except Str (Option Str) :=
  match lookupArg args k with
  | none => .ok none
  | some .jnull => .ok none
  | some (.jstr s) =>
      if s.length ≤ maxLen then .ok (some s)
      else .error ("validation error: ".data ++ k)
  | some _ => .error ("validation error: ".data ++ k)

/-- Optional unconstrained string field. -/
def optStr (args : ArgMap) (k : Str) : Except Str (Option Str) :=
  match lookupArg args k with
  | none => .ok none
  | some .jnull => .ok none
  | some (.jstr s) => .ok (some s)
  | some _ => .error ("validation error: ".data ++ k)

/-- The priority literal set `{low, medium, high}`. -/
def isPriority (s : Str) : Bool :=
  s == "low".data || s == "medium".data || s == "high".data

/-- Optional `Literal["low","medium","high"]` field. -/
def optPriority (args : ArgMap) (k : Str) : Except Str (Option Str) :=
  match lookupArg args k with
  | none => .ok none
  | some .jnull => .ok none
  | some (.jstr s) =>
      if isPriority s then .ok (some s)
      else .error ("validation error: ".data ++ k)
  | some _ => .error ("validation error: ".data ++ k)

/-- Validation of `AddTaskSchema` (mcp/schemas.py:13-17): required
`user_id`, required `title` (length 1..500), optional `description`
(≤ 5000, default empty), optional `priority` literal (default `medium`).
The exact pydantic error text is not modelled, only that validation fails. -/
def validateAddTask (args : ArgMap) : Except Str AddTaskParams := do
  let uid ← reqNat args "user_id".data
  let title ←
    match lookupArg args "title".data with
    | some (.jstr s) =>
        if 1 ≤ s.length && s.length ≤ 500 then Except.ok s
        else Except.error "validation error: title".data
    | _ => Except.error "validation error: title".data
  let descr ← optStrMax args "description".data 5000
  let prio ← optPriority args "priority".data
  return { user_id := uid, title := title,
           description := descr.getD [],
           priority := prio.getD "medium".data }

/-- Validation of `ListTasksSchema` (mcp/schemas.py:20-31): required
`user_id`, optional `status` literal (default `all`), optional `priority`
literal, optional `limit` with `1 ≤ limit ≤ 100` (default 50). -/
def validateListTasks (args : ArgMap) : Except Str ListTasksParams := do
  let uid ← reqNat args "user_id".data
  let status ←
    match lookupArg args "status".data with
    | none => Except.ok "all".data
    | some (.jstr s) =>
        if s == "all".data || s == "pending".data || s == "completed".data then
          Except.ok s
        else Except.error "validation error: status".data
    | some _ => Except.error "validation error: status".data
  let prio ← optPriority args "priority".data
  let limit ←
    match lookupArg args "limit".data with
    | none => Except.ok 50
    | some (.jint n) =>
        if 1 ≤ n && n ≤ 100 then Except.ok n
        else Except.error "validation error: limit".data
    | some _ => Except.error "validation error: limit".data
  return { user_id := uid, status := status, priority := prio, limit := limit }

/-- Validation of `CompleteTaskSchema` (mcp/schemas.py:34-38). -/
def validateCompleteTask (args : ArgMap) : Except Str CompleteTaskParams := do
  let uid ← reqNat args "user_id".data
  let tid ← optPosNat args "task_id".data
  let ttl ← optStr args "task_title".data
  return { user_id := uid, task_id := tid, task_title := ttl }

/-- Validation of `DeleteTaskSchema` (mcp/schemas.py:41-45). -/
def validateDeleteTask (args : ArgMap) : Except Str DeleteTaskParams := do
  let uid ← reqNat args "user_id".data
  let tid ← optPosNat args "task_id".data
  let ttl ← optStr args "task_title".data
  return { user_id := uid, task_id := tid, task_title := ttl }

/-- Validation of `UpdateTaskSchema` (mcp/schemas.py:48-58). -/
def validateUpdateTask (args : ArgMap) : Except Str UpdateTaskParams := do
  let uid ← reqNat args "user_id".data
  let tid ← optPosNat args "task_id".data
  let ttl ← optStr args "task_title".data
  let title ← optStrMax args "title".data 500
  let descr ← optStrMax args "description".data 5000
  let prio ← optPriority args "priority".data
  return { user_id := uid, task_id := tid, task_title := ttl,
           title := title, description := descr, priority := prio }

/-- The envelope `ChatAgent._execute_tool` returns for an unregistered tool
name (agent.py:99-103).  Note it carries no `message` key. -/
def unknownToolEnvelope (name : Str) : Envelope :=
  { success := false
    error := some ("Unknown tool: ".data ++ name) }

/-- The envelope `ChatAgent._execute_tool` returns when schema validation
(or the handler) raises (agent.py:117-122). -/
def toolFailedEnvelope (name e : Str) : Envelope :=
  { success := false
    error := some e
    message := some ("Failed to execute ".data ++ name ++ ": ".data ++ e) }

/-- Whether a tool name is in the `TOOLS` registry (tools.py:507-583). -/
def registryHas (name : Str) : Bool :=
  name == "add_task".data || name == "list_tasks".data ||
  name == "complete_task".data || name == "delete_task".data ||
  name == "update_task".data

/-- `ChatAgent._execute_tool` (agent.py:82-122): unknown-tool check, schema
validation, then the handler; validation failure (the only exception source
modelled — the handlers catch their own exceptions internally) yields the
`Failed to execute` envelope and no state change. -/
def executeTool (store : Store) (name : Str) (args : ArgMap) :
    Store × Envelope :=
  if name == "add_task".data then
    match validateAddTask args with
    | .error e => (store, toolFailedEnvelope name e)
    | .ok p => add_task store p
  else if name == "list_tasks".data then
    match validateListTasks args with
    | .error e => (store, toolFailedEnvelope name e)
    | .ok p => list_tasks_tool store p
  else if name == "complete_task".data then
    match validateCompleteTask args with
    | .error e => (store, toolFailedEnvelope name e)
    | .ok p => complete_task_tool store p
  else if name == "delete_task".data then
    match validateDeleteTask args with
    | .error e => (store, toolFailedEnvelope name e)
    | .ok p => delete_task_tool store p
  else if name == "update_task".data then
    match validateUpdateTask args with
    | .error e => (store, toolFailedEnvelope name e)
    | .ok p => update_task_tool store p
  else (store, unknownToolEnvelope name)

/-- One model-requested tool invocation. -/
structure ToolCallReq where
  name : Str
  arguments : ArgMap
deriving DecidableEq, Repr

/-- One round-trip answer of the external language model: either a reply
(content plus a possibly-empty batch of tool requests — the Python code
treats an empty batch as a final answer) or a raised exception.  The model
is abstracted as an oracle indexed by the 0-based round number. -/
inductive ModelResp where
  | reply (content : Str) (tool_calls : List ToolCallReq)
  | failure (err : Str)
deriving DecidableEq, Repr

/-- One entry of `tool_calls_log` (agent.py:206-210): the tool name, the
arguments after `user_id` injection, and the result envelope. -/
structure LogEntry where
  tool : Str
  arguments : ArgMap
  result : Envelope
deriving DecidableEq, Repr

/-- The dictionary `ChatAgent.chat` returns (agent.py:225-245). -/
structure ChatResult where
  assistant_message : Str
  tool_calls : Option (List LogEntry)
  iterations : Nat
  error : Option Str
deriving DecidableEq, Repr

/-- `tool_calls_log if tool_calls_log else None` (agent.py:227, 234, 242). -/
def optLog (log : List LogEntry) : Option (List LogEntry) :=
  if log.isEmpty then none else some log

/-- The fixed apology returned when the iteration cap is hit
(agent.py:241). -/
def apologyText : Str :=
  "I apologize, but I".data ++ sq ::
    "m having trouble completing that request. Please try breaking it down into smaller steps.".data

/-- Execute one round's batch of tool calls in emission order
(agent.py:187-218): inject `user_id` when absent, run the executor, append
one log entry per call. -/
def runToolCalls (user_id : Nat) :
    Store → List ToolCallReq → List LogEntry → Store × List LogEntry
  | store, [], log => (store, log)
  | store, c :: rest, log =>
      let args := inject_user_id c.arguments user_id
      let (store', env) := executeTool store c.name args
      runToolCalls user_id store' rest (log ++ [⟨c.name, args, env⟩])

/-- The agent loop of `ChatAgent.chat` (agent.py:148-245), with the
remaining iteration budget as structural fuel.  `iterations` is the number
of model round-trips performed so far; `model n` is the model's answer in
round `n` (0-based). -/
def chatAux (model : Nat → ModelResp) (user_id : Nat) :
    Nat → Nat → Store → List LogEntry → ChatResult × Store
  | 0, iterations, store, log =>
      ({ assistant_message := apologyText
         tool_calls := optLog log
         iterations := iterations
         error := some "Max iterations reached".data }, store)
  | fuel + 1, iterations, store, log =>
      match model iterations with
      | .failure e =>
          ({ assistant_message :=
               "I encountered an error: ".data ++ e ++ ". Please try again.".data
             tool_calls := optLog log
             iterations := iterations + 1
             error := some e }, store)
      | .reply content tool_calls =>
          if tool_calls.isEmpty then
            ({ assistant_message := content
               tool_calls := optLog log
               iterations := iterations + 1
               error := none }, store)
          else
            let (store', log') := runToolCalls user_id store tool_calls log
            chatAux model user_id fuel (iterations + 1) store' log'

/-- `ChatAgent.chat` (agent.py:124-245): run up to `max_iterations` model
round-trips. -/
def chat (model : Nat → ModelResp) (user_id : Nat) (store : Store)
    (max_iterations : Nat := 5) : ChatResult × Store :=
  chatAux model user_id max_iterations 0 store []

/-- Row of the `conversation_messages` table, restricted to the columns
`get_conversation_history` reads. -/
structure ConversationMessage where
  id : Nat
  conversation_id : Nat
  user_id : Nat
  role : Str
  content : Str
  created_at : Nat
deriving DecidableEq, Repr

/-- `crud.get_conversation_history` (crud.py:341-367): filter by
conversation, `ORDER BY created_at DESC`, `LIMIT limit`, then reverse into
chronological order. -/
def get_conversation_history (msgs : List ConversationMessage)
    (conversation_id : Nat) (limit : Nat := 20) : List ConversationMessage :=
  ((List.insertionSort (fun a b => b.created_at ≤ a.created_at)
      (msgs.filter (fun m => m.conversation_id == conversation_id))).take
    limit).reverse

/-! Concrete fixtures used by the counterexamples and witnesses. -/

/-- Fixture: the task `Buy milk` of user 1. -/
def buyMilkTask : Task :=
  { id := 1, user_id := 1, title := "Buy milk".data, description := []
    priority := "medium".data, completed := false, created_at := 10 }

/-- Fixture: the task `Buy milk today` of user 1. -/
def buyMilkTodayTask : Task :=
  { id := 2, user_id := 1, title := "Buy milk today".data, description := []
    priority := "medium".data, completed := false, created_at := 20 }

/-- Fixture: a store holding both `Buy milk` tasks. -/
def buyMilkStore : Store :=
  { tasks := [buyMilkTask, buyMilkTodayTask], notifications := [], nextId := 3
    clock := 30 }

/-- Fixture: a task owned by user 2 (for the ownership-leak claims). -/
def otherUsersTask : Task :=
  { id := 5, user_id := 2, title := "Pay electricity bill".data
    description := [], priority := "low".data, completed := false
    created_at := 5 }

/-- Fixture: a store holding only user 2's task. -/
def crossUserStore : Store :=
  { tasks := [otherUsersTask], notifications := [], nextId := 6, clock := 10 }

/-- Fixture: an already-completed task of user 1. -/
def payRentTask : Task :=
  { id := 3, user_id := 1, title := "Pay rent".data, description := []
    priority := "high".data, completed := true, created_at := 15 }

/-- Fixture: a store holding only the completed `Pay rent` task. -/
def payRentStore : Store :=
  { tasks := [payRentTask], notifications := [], nextId := 4, clock := 20 }

/-- Fixture: an empty store. -/
def emptyStore : Store :=
  { tasks := [], notifications := [], nextId := 1, clock := 0 }

/-- Fixture: a model oracle that requests the same tool call every round. -/
def alwaysToolModel : Nat → ModelResp :=
  fun _ => .reply [] [⟨"list_tasks".data, []⟩]

/-- Fixture: 25 turns of conversation 1, with creation times 1..25. -/
def convMessages : List ConversationMessage :=
  (List.range 25).map (fun i =>
    { id := i + 1, conversation_id := 1, user_id := 1, role := "user".data
      content := [], created_at := i + 1 })

/-- The batch of tool requests carried by a model answer (empty for a
raised exception, which also ends the loop). -/
def toolRequests : ModelResp → List ToolCallReq
  | .reply _ cs => cs
  | .failure _ => []

/-! ## Lemmas and claim theorems -/

theorem startsWithL_self (s : Str) : startsWithL s s = true := by
  induction s with
  | nil => rfl
  | cons c cs ih => simp [startsWithL, ih]

theorem containsSub_self (s : Str) : containsSub s s = true := by
  cases s with
  | nil => rfl
  | cons c cs => simp [containsSub, startsWithL_self]

theorem list_tasks_eq_pool (tasks : List Task) (uid : Nat) (q : Str)
    (cf : Option Bool) :
    list_tasks tasks uid 100 (some q) cf none =
      (sortByCreatedDesc (titleSearchPool tasks uid q cf)).take 100 := rfl

theorem resolve_eq (tasks : List Task) (uid : Nat) (q : Str) (cf : Option Bool) :
    resolve_by_title tasks uid q cf =
      (match (if ((list_tasks tasks uid 100 (some q) cf none).filter
            (fun t => lower t.title == lower q)).isEmpty
        then (list_tasks tasks uid 100 (some q) cf none).filter
            (fun t => containsSub (lower q) (lower t.title))
        else (list_tasks tasks uid 100 (some q) cf none).filter
            (fun t => lower t.title == lower q)) with
      | [] => TitleResolution.notFound
      | [t] => TitleResolution.resolved t
      | ts => TitleResolution.ambiguous ts) := rfl

theorem mem_pool_of_exact {tasks : List Task} {uid : Nat} {q : Str}
    {cf : Option Bool} {t : Task} (ht : t ∈ tasks) (hu : t.user_id = uid)
    (hq : lower t.title = lower q) (hc : ∀ b, cf = some b → t.completed = b) :
    t ∈ titleSearchPool tasks uid q cf := by
  unfold titleSearchPool
  cases cf with
  | none => simp [List.mem_filter, ht, hu, hq, containsSub_self]
  | some b => simp [List.mem_filter, ht, hu, hq, containsSub_self, hc b rfl]

theorem mem_fetched_of_pool_small {tasks : List Task} {uid : Nat} {q : Str}
    {cf : Option Bool} {t : Task}
    (hlen : (titleSearchPool tasks uid q cf).length ≤ 100)
    (ht : t ∈ titleSearchPool tasks uid q cf) :
    t ∈ list_tasks tasks uid 100 (some q) cf none := by
  rw [list_tasks_eq_pool]
  have hperm := List.perm_insertionSort
    (fun a b : Task => b.created_at ≤ a.created_at) (titleSearchPool tasks uid q cf)
  rw [sortByCreatedDesc, List.take_of_length_le (by rw [hperm.length_eq]; exact hlen)]
  exact hperm.mem_iff.mpr ht

theorem mem_fetched_pool {tasks : List Task} {uid : Nat} {q : Str}
    {cf : Option Bool} {t : Task}
    (ht : t ∈ list_tasks tasks uid 100 (some q) cf none) :
    t ∈ titleSearchPool tasks uid q cf := by
  rw [list_tasks_eq_pool] at ht
  have hperm := List.perm_insertionSort
    (fun a b : Task => b.created_at ≤ a.created_at) (titleSearchPool tasks uid q cf)
  exact hperm.mem_iff.mp ((List.take_sublist _ _).mem ht)

theorem mem_pool_completed {tasks : List Task} {uid : Nat} {q : Str} {b : Bool}
    {t : Task} (ht : t ∈ titleSearchPool tasks uid q (some b)) :
    t.completed = b := by
  unfold titleSearchPool at ht
  simpa using (List.mem_filter.mp ht).2

/-- Pass-1 precedence over the fetched candidate set: if any fetched task
is a case-insensitively exact title match, the resolution involves only
exact matches and cannot be `notFound`. -/
theorem resolve_exact_precedence (tasks : List Task) (uid : Nat) (q : Str)
    (cf : Option Bool)
    (h : ∃ t0, t0 ∈ list_tasks tasks uid 100 (some q) cf none ∧
      lower t0.title = lower q) :
    (∀ t, resolve_by_title tasks uid q cf = .resolved t →
      lower t.title = lower q) ∧
    (∀ cs, resolve_by_title tasks uid q cf = .ambiguous cs →
      ∀ c ∈ cs, lower c.title = lower q) ∧
    resolve_by_title tasks uid q cf ≠ .notFound := by
  obtain ⟨t0, ht0, hq0⟩ := h
  rw [resolve_eq]
  have hmem : t0 ∈ (list_tasks tasks uid 100 (some q) cf none).filter
      (fun t => lower t.title == lower q) :=
    List.mem_filter.mpr ⟨ht0, by simp [hq0]⟩
  have hne : ((list_tasks tasks uid 100 (some q) cf none).filter
      (fun t => lower t.title == lower q)).isEmpty = false := by
    cases hfe : (list_tasks tasks uid 100 (some q) cf none).filter
        (fun t => lower t.title == lower q) with
    | nil => rw [hfe] at hmem; cases hmem
    | cons a l => simp [hfe]
  rw [hne]
  simp only [Bool.false_eq_true, if_false]
  cases hfe : (list_tasks tasks uid 100 (some q) cf none).filter
      (fun t => lower t.title == lower q) with
  | nil => rw [hfe] at hmem; cases hmem
  | cons a l =>
    have hall : ∀ c ∈ a :: l, lower c.title = lower q := by
      intro c hc
      rw [← hfe] at hc
      simpa using (List.mem_filter.mp hc).2
    cases l with
    | nil =>
      refine ⟨?_, ?_, ?_⟩
      · intro t htr
        cases htr
        exact hall a (by simp)
      · intro cs hcs
        cases hcs
      · intro hnf
        cases hnf
    | cons b l' =>
      refine ⟨?_, ?_, ?_⟩
      · intro t htr
        cases htr
      · intro cs hcs
        cases hcs
        exact hall
      · intro hnf
        cases hnf

/-- C1: title resolution in the mutating tools is two-pass and exact-match
precedence holds: whenever an exact (case-insensitive) title match is
available to the search — stated both over the fetched candidate set and
over the full task table when the 100-row prefetch limit is not binding —
the resolution never falls back to a substring-only match and never reports
`notFound`; concretely, with tasks `Buy milk` and `Buy milk today`,
resolving `Buy milk` in each of `complete_task`, `delete_task` and
`update_task` returns the exact match (task 1). -/
theorem c1_exact_match_precedence (tasks : List Task) (uid : Nat) (q : Str)
    (cf : Option Bool) :
    ((∃ t0, t0 ∈ list_tasks tasks uid 100 (some q) cf none ∧
        lower t0.title = lower q) →
      (∀ t, resolve_by_title tasks uid q cf = .resolved t →
        lower t.title = lower q) ∧
      (∀ cs, resolve_by_title tasks uid q cf = .ambiguous cs →
        ∀ c ∈ cs, lower c.title = lower q) ∧
      resolve_by_title tasks uid q cf ≠ .notFound) ∧
    ((titleSearchPool tasks uid q cf).length ≤ 100 →
      (∃ t0, t0 ∈ tasks ∧ t0.user_id = uid ∧ lower t0.title = lower q ∧
        (∀ b, cf = some b → t0.completed = b)) →
      (∀ t, resolve_by_title tasks uid q cf = .resolved t →
        lower t.title = lower q) ∧
      (∀ cs, resolve_by_title tasks uid q cf = .ambiguous cs →
        ∀ c ∈ cs, lower c.title = lower q) ∧
      resolve_by_title tasks uid q cf ≠ .notFound) ∧
    (resolve_by_title buyMilkStore.tasks 1 "Buy milk".data (some false) =
        .resolved buyMilkTask ∧
      resolve_by_title buyMilkStore.tasks 1 "Buy milk".data none =
        .resolved buyMilkTask ∧
      (complete_task_tool buyMilkStore
        { user_id := 1, task_title := some "Buy milk".data }).2.task_id = some 1 ∧
      (delete_task_tool buyMilkStore
        { user_id := 1, task_title := some "Buy milk".data }).2.task_id = some 1 ∧
      (update_task_tool buyMilkStore
        { user_id := 1, task_title := some "Buy milk".data,
          title := some "Buy oat milk".data }).2.task_id = some 1) := by
  refine ⟨resolve_exact_precedence tasks uid q cf, ?_, by decide⟩
  intro hlen ⟨t0, ht0, hu, hq0, hc⟩
  exact resolve_exact_precedence tasks uid q cf
    ⟨t0, mem_fetched_of_pool_small hlen (mem_pool_of_exact ht0 hu hq0 hc), hq0⟩

/-- Witness for C1 at the `Buy milk` fixture. -/
theorem c1_exact_match_precedence_witness :
    (titleSearchPool buyMilkStore.tasks 1 "Buy milk".data none).length ≤ 100 ∧
    resolve_by_title buyMilkStore.tasks 1 "Buy milk".data none ≠ .notFound := by
  refine ⟨by decide, ?_⟩
  exact ((c1_exact_match_precedence buyMilkStore.tasks 1 "Buy milk".data
    none).2.1 (by decide)
    ⟨buyMilkTask, by decide, by decide, by decide, by decide⟩).2.2

theorem resolved_mem_fetched {tasks : List Task} {uid : Nat} {q : Str}
    {cf : Option Bool} {t : Task}
    (h : resolve_by_title tasks uid q cf = .resolved t) :
    t ∈ list_tasks tasks uid 100 (some q) cf none := by
  rw [resolve_eq] at h
  cases hif : ((list_tasks tasks uid 100 (some q) cf none).filter
      (fun t => lower t.title == lower q)).isEmpty with
  | true =>
    rw [hif, if_pos rfl] at h
    cases hfe : (list_tasks tasks uid 100 (some q) cf none).filter
        (fun t => containsSub (lower q) (lower t.title)) with
    | nil => rw [hfe] at h; simp at h
    | cons a l =>
      rw [hfe] at h
      cases l with
      | nil =>
        simp only [TitleResolution.resolved.injEq] at h
        subst h
        exact (List.filter_sublist _).mem (by rw [hfe]; simp)
      | cons b l' => simp at h
  | false =>
    rw [hif] at h
    simp only [Bool.false_eq_true, if_false] at h
    cases hfe : (list_tasks tasks uid 100 (some q) cf none).filter
        (fun t => lower t.title == lower q) with
    | nil => rw [hfe] at h; simp at h
    | cons a l =>
      rw [hfe] at h
      cases l with
      | nil =>
        simp only [TitleResolution.resolved.injEq] at h
        subst h
        exact (List.filter_sublist _).mem (by rw [hfe]; simp)
      | cons b l' => simp at h

/-- C7: the `complete_task` title search is scoped to pending tasks — every
task the search can fetch, and hence every task it can resolve, has
`completed = false` — while `delete_task` and `update_task` search the full
task set: concretely, the completed task `Pay rent` is invisible to
completion by title but is resolved, deleted and updated by title by the
other two tools. -/
theorem c7_complete_scoped_to_pending :
    (∀ (tasks : List Task) (uid : Nat) (q : Str) (t : Task),
      t ∈ list_tasks tasks uid 100 (some q) (some false) none →
      t.completed = false) ∧
    (∀ (tasks : List Task) (uid : Nat) (q : Str) (t : Task),
      resolve_by_title tasks uid q (some false) = .resolved t →
      t.completed = false) ∧
    (resolve_by_title payRentStore.tasks 1 "Pay rent".data (some false) =
      .notFound) ∧
    (resolve_by_title payRentStore.tasks 1 "Pay rent".data none =
      .resolved payRentTask) ∧
    ((complete_task_tool payRentStore
      { user_id := 1, task_title := some "Pay rent".data }).2.success = false) ∧
    ((delete_task_tool payRentStore
      { user_id := 1, task_title := some "Pay rent".data }).2.success = true) ∧
    ((update_task_tool payRentStore
      { user_id := 1, task_title := some "Pay rent".data,
        title := some "Pay rent today".data }).2.success = true) := by
  refine ⟨?_, ?_, by decide, by decide, by decide, by decide, by decide⟩
  · intro tasks uid q t ht
    exact mem_pool_completed (mem_fetched_pool ht)
  · intro tasks uid q t h
    exact mem_pool_completed (mem_fetched_pool (resolved_mem_fetched h))

/-- Witness for C7 at the `Pay rent` fixture. -/
theorem c7_complete_scoped_to_pending_witness :
    buyMilkTask ∈ list_tasks buyMilkStore.tasks 1 100 (some "Buy milk".data)
      (some false) none ∧
    buyMilkTask.completed = false := by
  refine ⟨by decide, ?_⟩
  exact c7_complete_scoped_to_pending.1 buyMilkStore.tasks 1 "Buy milk".data
    buyMilkTask (by decide)

/-- The permission-denied message always differs from the by-id not-found
message (they start with different characters). -/
theorem perm_message_ne_notfound_message (verb : Str) (tid : Nat) :
    (permissionDeniedEnvelope verb).message ≠ (notFoundByIdEnvelope tid).message := by
  intro h
  have h1 := Option.some.inj h
  have h2 := congrArg List.head? h1
  rw [show "You don".data = 'Y' :: "ou don".data from rfl,
    show "Task with ID ".data = 'T' :: "ask with ID ".data from rfl] at h2
  simp only [List.cons_append, List.head?_cons] at h2
  exact absurd (Option.some.inj h2) (by decide)

/-- C2, counterexample: resolving by id, a task owned by another user does
NOT produce the same user-facing message as a missing id — `complete_task`
and `delete_task` answer `You don't have permission ...` for user 2's task
5 but `Task with ID 9 not found` for the absent id 9 — so the response does
reveal the existence of another user's task. -/
theorem c2_same_not_found_counterexample :
    (complete_task_tool crossUserStore { user_id := 1, task_id := some 5 }).2 =
      permissionDeniedEnvelope "complete".data ∧
    (complete_task_tool crossUserStore { user_id := 1, task_id := some 9 }).2 =
      notFoundByIdEnvelope 9 ∧
    (complete_task_tool crossUserStore { user_id := 1, task_id := some 5 }).2.message ≠
      (complete_task_tool crossUserStore { user_id := 1, task_id := some 9 }).2.message ∧
    (delete_task_tool crossUserStore { user_id := 1, task_id := some 5 }).2.message ≠
      (delete_task_tool crossUserStore { user_id := 1, task_id := some 9 }).2.message := by
  refine ⟨by decide, by decide, by decide, by decide⟩

/-- C2, amended: for id resolution in the mutating tools, an absent id
yields the `Task with ID ... not found` envelope while an id owned by a
different user yields the distinct `You don't have permission ...`
envelope (never a mutation); the two messages always differ, so the
wrong-owner response reveals that the task exists. -/
theorem c2_ownership_message_distinction (store : Store) (uid tid : Nat) :
    (get_task store.tasks tid = none →
      complete_task_tool store { user_id := uid, task_id := some tid } =
        (store, notFoundByIdEnvelope tid) ∧
      delete_task_tool store { user_id := uid, task_id := some tid } =
        (store, notFoundByIdEnvelope tid) ∧
      update_task_tool store { user_id := uid, task_id := some tid } =
        (store, notFoundByIdEnvelope tid)) ∧
    (∀ t, get_task store.tasks tid = some t → t.user_id ≠ uid →
      complete_task_tool store { user_id := uid, task_id := some tid } =
        (store, permissionDeniedEnvelope "complete".data) ∧
      delete_task_tool store { user_id := uid, task_id := some tid } =
        (store, permissionDeniedEnvelope "delete".data) ∧
      update_task_tool store { user_id := uid, task_id := some tid } =
        (store, permissionDeniedEnvelope "update".data)) ∧
    (∀ (verb : Str) (tid2 : Nat),
      (permissionDeniedEnvelope verb).message ≠
        (notFoundByIdEnvelope tid2).message) := by
  refine ⟨?_, ?_, perm_message_ne_notfound_message⟩
  · intro h
    refine ⟨?_, ?_, ?_⟩
    · simp [complete_task_tool, complete_task_finish, h]
    · simp [delete_task_tool, delete_task_finish, h]
    · simp [update_task_tool, update_task_finish, h]
  · intro t h hne
    refine ⟨?_, ?_, ?_⟩
    · simp [complete_task_tool, complete_task_finish, h, hne]
    · simp [delete_task_tool, delete_task_finish, h, hne]
    · simp [update_task_tool, update_task_finish, h, hne]

/-- Witness for the amended C2 at the cross-user fixture. -/
theorem c2_ownership_message_distinction_witness :
    complete_task_tool crossUserStore { user_id := 1, task_id := some 9 } =
      (crossUserStore, notFoundByIdEnvelope 9) ∧
    complete_task_tool crossUserStore { user_id := 1, task_id := some 5 } =
      (crossUserStore, permissionDeniedEnvelope "complete".data) := by
  refine ⟨((c2_ownership_message_distinction crossUserStore 1 9).1 (by decide)).1,
    ((c2_ownership_message_distinction crossUserStore 1 5).2.1 otherUsersTask
      (by decide) (by decide)).1⟩

/-- C3: the agent injects the authenticated user's id under `user_id` into
a model-supplied argument map exactly when that key is absent, leaving
every other binding (and a present `user_id` value, whatever it is)
unchanged; and each requested tool call runs on the injected argument map. -/
theorem c3_user_id_injection (args : ArgMap) (uid : Nat) :
    (lookupArg args "user_id".data = none →
      inject_user_id args uid = args ++ [("user_id".data, JVal.jint uid)] ∧
      lookupArg (inject_user_id args uid) "user_id".data =
        some (JVal.jint uid) ∧
      (∀ k, k ≠ "user_id".data →
        lookupArg (inject_user_id args uid) k = lookupArg args k)) ∧
    (∀ v, lookupArg args "user_id".data = some v →
      inject_user_id args uid = args) ∧
    (∀ (store : Store) (c : ToolCallReq) (log : List LogEntry),
      runToolCalls uid store [c] log =
        ((executeTool store c.name (inject_user_id c.arguments uid)).1,
          log ++ [⟨c.name, inject_user_id c.arguments uid,
            (executeTool store c.name (inject_user_id c.arguments uid)).2⟩])) := by
  refine ⟨?_, ?_, ?_⟩
  · intro h
    have hfind : args.find? (fun kv => kv.1 == "user_id".data) = none := by
      simp only [lookupArg] at h
      exact Option.map_eq_none'.mp h
    have hinj : inject_user_id args uid =
        args ++ [("user_id".data, JVal.jint uid)] := by
      simp [inject_user_id, lookupArg, hfind]
    refine ⟨hinj, ?_, ?_⟩
    · rw [hinj]
      simp [lookupArg, List.find?_append, hfind]
    · intro k hk
      rw [hinj]
      have hbk : (("user_id".data : Str) == k) = false :=
        beq_eq_false_iff_ne.mpr (Ne.symm hk)
      simp [lookupArg, List.find?_append, List.find?, hbk]
  · intro v h
    have : (lookupArg args "user_id".data).isSome = true := by
      rw [h]; rfl
    simp [inject_user_id, this]
  · intro store c log
    simp only [runToolCalls]

/-- Witness for C3: a map without `user_id` gets the authenticated id 42
appended; a map carrying `user_id = 7` is passed through unchanged. -/
theorem c3_user_id_injection_witness :
    inject_user_id [("task_title".data, JVal.jstr "Buy milk".data)] 42 =
      [("task_title".data, JVal.jstr "Buy milk".data),
        ("user_id".data, JVal.jint 42)] ∧
    inject_user_id [("user_id".data, JVal.jint 7)] 42 =
      [("user_id".data, JVal.jint 7)] := by
  refine ⟨((c3_user_id_injection
      [("task_title".data, JVal.jstr "Buy milk".data)] 42).1 (by decide)).1,
    (c3_user_id_injection [("user_id".data, JVal.jint 7)] 42).2.1
      (JVal.jint 7) (by decide)⟩

theorem resolve_ambiguous_two {tasks : List Task} {uid : Nat} {q : Str}
    {cf : Option Bool} {cs : List Task}
    (h : resolve_by_title tasks uid q cf = .ambiguous cs) : 2 ≤ cs.length := by
  rw [resolve_eq] at h
  cases hif : ((list_tasks tasks uid 100 (some q) cf none).filter
      (fun t => lower t.title == lower q)).isEmpty with
  | true =>
    rw [hif, if_pos rfl] at h
    cases hfe : (list_tasks tasks uid 100 (some q) cf none).filter
        (fun t => containsSub (lower q) (lower t.title)) with
    | nil => rw [hfe] at h; simp at h
    | cons a l =>
      rw [hfe] at h
      cases l with
      | nil => simp at h
      | cons b l' =>
        simp only [TitleResolution.ambiguous.injEq] at h
        subst h
        simp only [List.length_cons]
        omega
  | false =>
    rw [hif] at h
    simp only [Bool.false_eq_true, if_false] at h
    cases hfe : (list_tasks tasks uid 100 (some q) cf none).filter
        (fun t => lower t.title == lower q) with
    | nil => rw [hfe] at h; simp at h
    | cons a l =>
      rw [hfe] at h
      cases l with
      | nil => simp at h
      | cons b l' =>
        simp only [TitleResolution.ambiguous.injEq] at h
        subst h
        simp only [List.length_cons]
        omega

/-- C8: when title resolution is ambiguous (the winning pass has more than
one hit — and it always has at least two in that case), each mutating tool
leaves the store untouched and returns the failure envelope whose message
renders exactly the candidate list, one `- ID <id>: <title>` line per
candidate. -/
theorem c8_ambiguous_no_mutation (store : Store) (uid : Nat) (q : Str)
    (cands : List Task) :
    (resolve_by_title store.tasks uid q (some false) = .ambiguous cands →
      complete_task_tool store { user_id := uid, task_title := some q } =
        (store, ambiguousEnvelope q cands "Please use the task ID.".data)) ∧
    (resolve_by_title store.tasks uid q none = .ambiguous cands →
      delete_task_tool store { user_id := uid, task_title := some q } =
        (store, ambiguousEnvelope q cands "Please use the task ID to delete.".data) ∧
      (∀ ttl descr prio, update_task_tool store
          { user_id := uid, task_title := some q, title := ttl,
            description := descr, priority := prio } =
        (store, ambiguousEnvelope q cands "Please use the task ID.".data))) ∧
    (∀ (tasks2 : List Task) (uid2 : Nat) (q2 : Str) (cf : Option Bool)
        (cs : List Task),
      resolve_by_title tasks2 uid2 q2 cf = .ambiguous cs → 2 ≤ cs.length) := by
  refine ⟨?_, ?_, fun _ _ _ _ _ h => resolve_ambiguous_two h⟩
  · intro h
    simp [complete_task_tool, h]
  · intro h
    refine ⟨by simp [delete_task_tool, h], ?_⟩
    intro ttl descr prio
    simp [update_task_tool, h]

/-- Witness for C8 at the `Buy milk` fixture with the ambiguous query
`milk`. -/
theorem c8_ambiguous_no_mutation_witness :
    complete_task_tool buyMilkStore { user_id := 1, task_title := some "milk".data } =
      (buyMilkStore, ambiguousEnvelope "milk".data
        [buyMilkTodayTask, buyMilkTask] "Please use the task ID.".data) := by
  exact (c8_ambiguous_no_mutation buyMilkStore 1 "milk".data
    [buyMilkTodayTask, buyMilkTask]).1 (by decide)

theorem get_task_mem {tasks : List Task} {tid : Nat} {t : Task}
    (h : get_task tasks tid = some t) : t ∈ tasks ∧ t.id = tid := by
  refine ⟨List.mem_of_find?_eq_some h, ?_⟩
  simpa using List.find?_some h

theorem mem_pool_tasks {tasks : List Task} {uid : Nat} {q : Str}
    {cf : Option Bool} {t : Task} (h : t ∈ titleSearchPool tasks uid q cf) :
    t ∈ tasks ∧ t.user_id = uid := by
  unfold titleSearchPool at h
  cases cf with
  | none =>
    obtain ⟨h1, -⟩ := List.mem_filter.mp h
    obtain ⟨h2, h3⟩ := List.mem_filter.mp h1
    exact ⟨h2, by simpa using h3⟩
  | some b =>
    obtain ⟨h0, -⟩ := List.mem_filter.mp h
    obtain ⟨h1, -⟩ := List.mem_filter.mp h0
    obtain ⟨h2, h3⟩ := List.mem_filter.mp h1
    exact ⟨h2, by simpa using h3⟩

theorem complete_finish_notif {store : Store} {uid : Nat} {task? : Option Task}
    {tid : Nat}
    (hs : (complete_task_finish store uid task? tid).2.success = true) :
    ∃ tid2 ttl, (complete_task_finish store uid task? tid).2.task_id = some tid2 ∧
      (complete_task_finish store uid task? tid).2.title = some ttl ∧
      (complete_task_finish store uid task? tid).1.notifications =
        store.notifications ++
          [{ user_id := uid, task_id := tid2, type := "task_completed".data
             message := "Completed: ".data ++ dq :: ttl ++ [dq]
             is_read := false }] := by
  cases task? with
  | none => simp [complete_task_finish, notFoundByIdEnvelope] at hs
  | some t =>
    cases ho : t.user_id != uid with
    | true => simp [complete_task_finish, ho, permissionDeniedEnvelope] at hs
    | false =>
      cases hp : patch_task store.tasks tid { completed := some true } with
      | none => simp [complete_task_finish, ho, hp] at hs
      | some pr =>
        obtain ⟨tasks', updated⟩ := pr
        exact ⟨updated.id, updated.title,
          by simp [complete_task_finish, ho, hp],
          by simp [complete_task_finish, ho, hp],
          by simp [complete_task_finish, ho, hp]⟩

theorem delete_finish_notif {store : Store} {uid : Nat} {task? : Option Task}
    {tid : Nat}
    (hs : (delete_task_finish store uid task? tid).2.success = true) :
    ∃ t, task? = some t ∧
      (delete_task_finish store uid task? tid).2.task_id = some tid ∧
      (delete_task_finish store uid task? tid).1.notifications =
        store.notifications ++
          [{ user_id := uid, task_id := tid, type := "task_deleted".data
             message := "Deleted: ".data ++ dq :: t.title ++ [dq]
             is_read := false }] := by
  cases task? with
  | none => simp [delete_task_finish, notFoundByIdEnvelope] at hs
  | some t =>
    cases ho : t.user_id != uid with
    | true => simp [delete_task_finish, ho, permissionDeniedEnvelope] at hs
    | false =>
      cases hd : (crud_delete_task store.tasks tid).2 with
      | false => simp [delete_task_finish, ho, hd] at hs
      | true =>
        exact ⟨t, rfl, by simp [delete_task_finish, ho, hd],
          by simp [delete_task_finish, ho, hd]⟩

theorem update_finish_notif {store : Store} {p : UpdateTaskParams}
    {task? : Option Task} {tid : Nat}
    (hs : (update_task_finish store p task? tid).2.success = true) :
    ∃ tid2 ttl, (update_task_finish store p task? tid).2.task_id = some tid2 ∧
      (update_task_finish store p task? tid).2.title = some ttl ∧
      (update_task_finish store p task? tid).1.notifications =
        store.notifications ++
          [{ user_id := p.user_id, task_id := tid2, type := "task_updated".data
             message := "Updated: ".data ++ dq :: ttl ++ [dq]
             is_read := false }] := by
  cases task? with
  | none => simp [update_task_finish, notFoundByIdEnvelope] at hs
  | some t =>
    cases ho : t.user_id != p.user_id with
    | true => simp [update_task_finish, ho, permissionDeniedEnvelope] at hs
    | false =>
      cases hnb : (p.title == none && p.description == none &&
          p.priority == none) with
      | true => simp [update_task_finish, ho, hnb] at hs
      | false =>
        cases hp : patch_task store.tasks tid
            { title := p.title, description := p.description
              priority := p.priority } with
        | none => simp [update_task_finish, ho, hnb, hp] at hs
        | some pr =>
          obtain ⟨tasks', updated⟩ := pr
          exact ⟨updated.id, updated.title,
            by simp [update_task_finish, ho, hnb, hp],
            by simp [update_task_finish, ho, hnb, hp],
            by simp [update_task_finish, ho, hnb, hp]⟩

/-- C9: every successful mutating tool call appends exactly one
notification row, scoped to the acting user and the affected task, whose
type tag names the operation and whose message embeds the task's title —
for `delete_task`, the title of the task as it stood in the store before
the deletion. -/
theorem c9_notification_per_mutation :
    (∀ (store : Store) (p : AddTaskParams),
      (add_task store p).2.success = true ∧
      (add_task store p).2.task_id = some store.nextId ∧
      (add_task store p).1.notifications = store.notifications ++
        [{ user_id := p.user_id, task_id := store.nextId
           type := "task_created".data
           message := "Created task: ".data ++ dq :: p.title ++ [dq]
           is_read := false }]) ∧
    (∀ (store : Store) (p : CompleteTaskParams),
      (complete_task_tool store p).2.success = true →
      ∃ tid ttl, (complete_task_tool store p).2.task_id = some tid ∧
        (complete_task_tool store p).2.title = some ttl ∧
        (complete_task_tool store p).1.notifications = store.notifications ++
          [{ user_id := p.user_id, task_id := tid
             type := "task_completed".data
             message := "Completed: ".data ++ dq :: ttl ++ [dq]
             is_read := false }]) ∧
    (∀ (store : Store) (p : DeleteTaskParams),
      (delete_task_tool store p).2.success = true →
      ∃ tid t, t ∈ store.tasks ∧ t.id = tid ∧
        (delete_task_tool store p).2.task_id = some tid ∧
        (delete_task_tool store p).1.notifications = store.notifications ++
          [{ user_id := p.user_id, task_id := tid
             type := "task_deleted".data
             message := "Deleted: ".data ++ dq :: t.title ++ [dq]
             is_read := false }]) ∧
    (∀ (store : Store) (p : UpdateTaskParams),
      (update_task_tool store p).2.success = true →
      ∃ tid ttl, (update_task_tool store p).2.task_id = some tid ∧
        (update_task_tool store p).2.title = some ttl ∧
        (update_task_tool store p).1.notifications = store.notifications ++
          [{ user_id := p.user_id, task_id := tid
             type := "task_updated".data
             message := "Updated: ".data ++ dq :: ttl ++ [dq]
             is_read := false }]) := by
  refine ⟨?_, ?_, ?_, ?_⟩
  · intro store p
    refine ⟨rfl, rfl, ?_⟩
    simp [add_task]
  · intro store p hs
    obtain ⟨uid, tid?, ttl?⟩ := p
    cases ttl? with
    | some q =>
      cases hr : resolve_by_title store.tasks uid q (some false) with
      | notFound => simp [complete_task_tool, hr] at hs
      | ambiguous cands => simp [complete_task_tool, hr, ambiguousEnvelope] at hs
      | resolved t =>
        have he : complete_task_tool store
            { user_id := uid, task_id := tid?, task_title := some q } =
            complete_task_finish store uid (some t) t.id := by
          simp [complete_task_tool, hr]
        rw [he] at hs ⊢
        exact complete_finish_notif hs
    | none =>
      cases tid? with
      | some tid =>
        have he : complete_task_tool store
            { user_id := uid, task_id := some tid, task_title := none } =
            complete_task_finish store uid (get_task store.tasks tid) tid := by
          simp [complete_task_tool]
        rw [he] at hs ⊢
        exact complete_finish_notif hs
      | none => simp [complete_task_tool] at hs
  · intro store p hs
    obtain ⟨uid, tid?, ttl?⟩ := p
    cases ttl? with
    | some q =>
      cases hr : resolve_by_title store.tasks uid q none with
      | notFound => simp [delete_task_tool, hr] at hs
      | ambiguous cands => simp [delete_task_tool, hr, ambiguousEnvelope] at hs
      | resolved t =>
        have he : delete_task_tool store
            { user_id := uid, task_id := tid?, task_title := some q } =
            delete_task_finish store uid (some t) t.id := by
          simp [delete_task_tool, hr]
        rw [he] at hs ⊢
        obtain ⟨t', ht', h1, h2⟩ := delete_finish_notif hs
        obtain rfl : t = t' := by exact Option.some.inj ht'
        exact ⟨t.id, t,
          (mem_pool_tasks (mem_fetched_pool (resolved_mem_fetched hr))).1,
          rfl, h1, h2⟩
    | none =>
      cases tid? with
      | some tid =>
        have he : delete_task_tool store
            { user_id := uid, task_id := some tid, task_title := none } =
            delete_task_finish store uid (get_task store.tasks tid) tid := by
          simp [delete_task_tool]
        rw [he] at hs ⊢
        obtain ⟨t', ht', h1, h2⟩ := delete_finish_notif hs
        obtain ⟨hmem, hid⟩ := get_task_mem ht'
        exact ⟨tid, t', hmem, hid, h1, h2⟩
      | none => simp [delete_task_tool] at hs
  · intro store p hs
    obtain ⟨uid, tid?, ttl?, nt, nd, np⟩ := p
    cases ttl? with
    | some q =>
      cases hr : resolve_by_title store.tasks uid q none with
      | notFound => simp [update_task_tool, hr] at hs
      | ambiguous cands => simp [update_task_tool, hr, ambiguousEnvelope] at hs
      | resolved t =>
        have he : update_task_tool store
            { user_id := uid, task_id := tid?, task_title := some q,
              title := nt, description := nd, priority := np } =
            update_task_finish store
              { user_id := uid, task_id := tid?, task_title := some q,
                title := nt, description := nd, priority := np }
              (some t) t.id := by
          simp [update_task_tool, hr]
        rw [he] at hs ⊢
        exact update_finish_notif hs
    | none =>
      cases tid? with
      | some tid =>
        have he : update_task_tool store
            { user_id := uid, task_id := some tid, task_title := none,
              title := nt, description := nd, priority := np } =
            update_task_finish store
              { user_id := uid, task_id := some tid, task_title := none,
                title := nt, description := nd, priority := np }
              (get_task store.tasks tid) tid := by
          simp [update_task_tool]
        rw [he] at hs ⊢
        exact update_finish_notif hs
      | none => simp [update_task_tool] at hs

/-- Witness for C9: deleting `Buy milk` by title at the fixture succeeds
and appends the `task_deleted` notification built from the pre-deletion
title. -/
theorem c9_notification_per_mutation_witness :
    (delete_task_tool buyMilkStore
      { user_id := 1, task_title := some "Buy milk".data }).2.success = true ∧
    ∃ tid t, t ∈ buyMilkStore.tasks ∧ t.id = tid ∧
      (delete_task_tool buyMilkStore
        { user_id := 1, task_title := some "Buy milk".data }).2.task_id =
          some tid ∧
      (delete_task_tool buyMilkStore
        { user_id := 1, task_title := some "Buy milk".data }).1.notifications =
        buyMilkStore.notifications ++
          [{ user_id := 1, task_id := tid, type := "task_deleted".data
             message := "Deleted: ".data ++ dq :: t.title ++ [dq]
             is_read := false }] := by
  refine ⟨by decide, ?_⟩
  exact c9_notification_per_mutation.2.2.1 buyMilkStore
    { user_id := 1, task_title := some "Buy milk".data } (by decide)

theorem get_task_map_replace {tasks : List Task} {tid : Nat} {t t' : Task}
    (h : get_task tasks tid = some t) (h2 : t'.id = tid) :
    get_task (tasks.map (fun u => if u.id == tid then t' else u)) tid =
      some t' := by
  induction tasks with
  | nil => simp [get_task] at h
  | cons a rest ih =>
    cases ha : (a.id == tid) with
    | true =>
      simp only [get_task, List.map_cons, ha, if_true]
      rw [List.find?_cons_of_pos _ (by simp [h2])]
    | false =>
      have h' : get_task rest tid = some t := by
        unfold get_task at h
        rwa [List.find?_cons_of_neg _ (by simp [ha])] at h
      simp only [get_task, List.map_cons, ha, Bool.false_eq_true, if_false]
      rw [List.find?_cons_of_neg _ (by simp [ha])]
      exact ih h'

/-- C10: completing by `task_id` is idempotent — for a task owned by the
requesting user (completed or not), the call succeeds, the task ends up
with `completed = true`, and an immediately repeated identical call returns
the very same success envelope — whereas completion by title can never
re-match a completed task. -/
theorem c10_complete_by_id_idempotent :
    (∀ (store : Store) (uid tid : Nat) (t : Task),
      get_task store.tasks tid = some t → t.user_id = uid →
      (complete_task_tool store
        { user_id := uid, task_id := some tid }).2.success = true ∧
      (complete_task_tool store
        { user_id := uid, task_id := some tid }).2.completed = some true ∧
      get_task (complete_task_tool store
        { user_id := uid, task_id := some tid }).1.tasks tid =
        some (applyPatch { completed := some true } t) ∧
      (complete_task_tool
        (complete_task_tool store { user_id := uid, task_id := some tid }).1
        { user_id := uid, task_id := some tid }).2 =
      (complete_task_tool store
        { user_id := uid, task_id := some tid }).2) ∧
    (∀ (tasks : List Task) (uid : Nat) (q : Str) (t : Task),
      resolve_by_title tasks uid q (some false) = .resolved t →
      t.completed = false) := by
  refine ⟨?_, ?_⟩
  · intro store uid tid t hget huid
    have hid := (get_task_mem hget).2
    have ho : (t.user_id != uid) = false := by simp [huid]
    have ht₁id : (applyPatch { completed := some true } t).id = tid := by
      simpa [applyPatch] using hid
    have hpatch : patch_task store.tasks tid { completed := some true } =
        some (store.tasks.map (fun u =>
            if u.id == tid then applyPatch { completed := some true } t else u),
          applyPatch { completed := some true } t) := by
      simp only [patch_task, hget]
    have he1 : complete_task_tool store { user_id := uid, task_id := some tid } =
        ({ store with
            tasks := store.tasks.map (fun u =>
              if u.id == tid then applyPatch { completed := some true } t else u)
            notifications := store.notifications ++
              [{ user_id := uid
                 task_id := (applyPatch { completed := some true } t).id
                 type := "task_completed".data
                 message := "Completed: ".data ++
                   dq :: (applyPatch { completed := some true } t).title ++ [dq]
                 is_read := false }] },
         { success := true
           task_id := some (applyPatch { completed := some true } t).id
           title := some (applyPatch { completed := some true } t).title
           completed := some (applyPatch { completed := some true } t).completed
           message := some ("Task ".data ++
             sq :: (applyPatch { completed := some true } t).title ++
             sq :: " marked as complete!".data) }) := by
      simp only [complete_task_tool, complete_task_finish, hget, ho, hpatch,
        Bool.false_eq_true, if_false]
    have hm : get_task (store.tasks.map (fun u =>
        if u.id == tid then applyPatch { completed := some true } t else u)) tid =
        some (applyPatch { completed := some true } t) :=
      get_task_map_replace hget ht₁id
    refine ⟨by rw [he1], by rw [he1]; simp [applyPatch], by rw [he1]; exact hm, ?_⟩
    have ho2 : ((applyPatch { completed := some true } t).user_id != uid) = false := by
      simp [applyPatch, huid]
    have hpatch2 : patch_task (store.tasks.map (fun u =>
        if u.id == tid then applyPatch { completed := some true } t else u)) tid
        { completed := some true } =
        some ((store.tasks.map (fun u =>
            if u.id == tid then applyPatch { completed := some true } t else u)).map
            (fun u => if u.id == tid then
              applyPatch { completed := some true }
                (applyPatch { completed := some true } t) else u),
          applyPatch { completed := some true }
            (applyPatch { completed := some true } t)) := by
      simp only [patch_task, hm]
    rw [he1]
    simp only [complete_task_tool, complete_task_finish, hm, ho2, hpatch2,
      Bool.false_eq_true, if_false]
    simp [applyPatch]
  · intro tasks uid q t h
    exact mem_pool_completed (mem_fetched_pool (resolved_mem_fetched h))

/-- Witness for C10 at the already-completed `Pay rent` fixture. -/
theorem c10_complete_by_id_idempotent_witness :
    (complete_task_tool payRentStore
      { user_id := 1, task_id := some 3 }).2.success = true ∧
    (complete_task_tool payRentStore
      { user_id := 1, task_id := some 3 }).2.completed = some true ∧
    get_task (complete_task_tool payRentStore
      { user_id := 1, task_id := some 3 }).1.tasks 3 =
      some (applyPatch { completed := some true } payRentTask) ∧
    (complete_task_tool
      (complete_task_tool payRentStore { user_id := 1, task_id := some 3 }).1
      { user_id := 1, task_id := some 3 }).2 =
    (complete_task_tool payRentStore
      { user_id := 1, task_id := some 3 }).2 :=
  c10_complete_by_id_idempotent.1 payRentStore 1 3 payRentTask (by decide)
    (by decide)

theorem complete_finish_message_isSome (store : Store) (uid : Nat)
    (task? : Option Task) (tid : Nat) :
    ((complete_task_finish store uid task? tid).2.message).isSome = true := by
  cases task? with
  | none => rfl
  | some t =>
    cases ho : t.user_id != uid with
    | true => simp [complete_task_finish, ho, permissionDeniedEnvelope]
    | false =>
      cases hp : patch_task store.tasks tid { completed := some true } with
      | none => simp [complete_task_finish, ho, hp]
      | some pr =>
        obtain ⟨a, b⟩ := pr
        simp [complete_task_finish, ho, hp]

theorem complete_tool_message_isSome (store : Store) (p : CompleteTaskParams) :
    ((complete_task_tool store p).2.message).isSome = true := by
  obtain ⟨uid, tid?, ttl?⟩ := p
  cases ttl? with
  | some q =>
    cases hr : resolve_by_title store.tasks uid q (some false) with
    | notFound => simp [complete_task_tool, hr]
    | ambiguous cands => simp [complete_task_tool, hr, ambiguousEnvelope]
    | resolved t =>
      have he : complete_task_tool store
          { user_id := uid, task_id := tid?, task_title := some q } =
          complete_task_finish store uid (some t) t.id := by
        simp [complete_task_tool, hr]
      rw [he]
      exact complete_finish_message_isSome store uid (some t) t.id
  | none =>
    cases tid? with
    | some tid =>
      have he : complete_task_tool store
          { user_id := uid, task_id := some tid, task_title := none } =
          complete_task_finish store uid (get_task store.tasks tid) tid := by
        simp [complete_task_tool]
      rw [he]
      exact complete_finish_message_isSome store uid (get_task store.tasks tid) tid
    | none => rfl

theorem delete_finish_message_isSome (store : Store) (uid : Nat)
    (task? : Option Task) (tid : Nat) :
    ((delete_task_finish store uid task? tid).2.message).isSome = true := by
  cases task? with
  | none => rfl
  | some t =>
    cases ho : t.user_id != uid with
    | true => simp [delete_task_finish, ho, permissionDeniedEnvelope]
    | false =>
      cases hd : (crud_delete_task store.tasks tid).2 with
      | false => simp [delete_task_finish, ho, hd]
      | true => simp [delete_task_finish, ho, hd]

theorem delete_tool_message_isSome (store : Store) (p : DeleteTaskParams) :
    ((delete_task_tool store p).2.message).isSome = true := by
  obtain ⟨uid, tid?, ttl?⟩ := p
  cases ttl? with
  | some q =>
    cases hr : resolve_by_title store.tasks uid q none with
    | notFound => simp [delete_task_tool, hr]
    | ambiguous cands => simp [delete_task_tool, hr, ambiguousEnvelope]
    | resolved t =>
      have he : delete_task_tool store
          { user_id := uid, task_id := tid?, task_title := some q } =
          delete_task_finish store uid (some t) t.id := by
        simp [delete_task_tool, hr]
      rw [he]
      exact delete_finish_message_isSome store uid (some t) t.id
  | none =>
    cases tid? with
    | some tid =>
      have he : delete_task_tool store
          { user_id := uid, task_id := some tid, task_title := none } =
          delete_task_finish store uid (get_task store.tasks tid) tid := by
        simp [delete_task_tool]
      rw [he]
      exact delete_finish_message_isSome store uid (get_task store.tasks tid) tid
    | none => rfl

theorem update_finish_message_isSome (store : Store) (p : UpdateTaskParams)
    (task? : Option Task) (tid : Nat) :
    ((update_task_finish store p task? tid).2.message).isSome = true := by
  cases task? with
  | none => rfl
  | some t =>
    cases ho : t.user_id != p.user_id with
    | true => simp [update_task_finish, ho, permissionDeniedEnvelope]
    | false =>
      cases hnb : (p.title == none && p.description == none &&
          p.priority == none) with
      | true => simp [update_task_finish, ho, hnb]
      | false =>
        cases hp : patch_task store.tasks tid
            { title := p.title, description := p.description
              priority := p.priority } with
        | none => simp [update_task_finish, ho, hnb, hp]
        | some pr =>
          obtain ⟨a, b⟩ := pr
          simp [update_task_finish, ho, hnb, hp]

theorem update_tool_message_isSome (store : Store) (p : UpdateTaskParams) :
    ((update_task_tool store p).2.message).isSome = true := by
  obtain ⟨uid, tid?, ttl?, nt, nd, np⟩ := p
  cases ttl? with
  | some q =>
    cases hr : resolve_by_title store.tasks uid q none with
    | notFound => simp [update_task_tool, hr]
    | ambiguous cands => simp [update_task_tool, hr, ambiguousEnvelope]
    | resolved t =>
      have he : update_task_tool store
          { user_id := uid, task_id := tid?, task_title := some q,
            title := nt, description := nd, priority := np } =
          update_task_finish store
            { user_id := uid, task_id := tid?, task_title := some q,
              title := nt, description := nd, priority := np } (some t) t.id := by
        simp [update_task_tool, hr]
      rw [he]
      exact update_finish_message_isSome store _ (some t) t.id
  | none =>
    cases tid? with
    | some tid =>
      have he : update_task_tool store
          { user_id := uid, task_id := some tid, task_title := none,
            title := nt, description := nd, priority := np } =
          update_task_finish store
            { user_id := uid, task_id := some tid, task_title := none,
              title := nt, description := nd, priority := np }
            (get_task store.tasks tid) tid := by
        simp [update_task_tool]
      rw [he]
      exact update_finish_message_isSome store _ (get_task store.tasks tid) tid
    | none => rfl

/-- C4, counterexample: the envelope the executor returns for an unknown
tool name carries `success` and `error` but NO `message` key, so not every
result envelope contains a human-readable message string. -/
theorem c4_envelope_message_counterexample :
    (executeTool emptyStore "bogus".data []).2 = unknownToolEnvelope "bogus".data ∧
    (executeTool emptyStore "bogus".data []).2.message = none := by
  exact ⟨by decide, by decide⟩

/-- C4, amended: tool execution is a total function into result envelopes —
an unknown tool name, a schema-validation failure and every handler outcome
produce an envelope with a `success` flag and no state change on failure;
every envelope of a registered tool carries a `message` string, but the
unknown-tool envelope carries only `success` and `error` and no `message`. -/
theorem c4_execute_returns_envelope (store : Store) (name : Str) (args : ArgMap) :
    (registryHas name = false →
      executeTool store name args = (store, unknownToolEnvelope name) ∧
      (unknownToolEnvelope name).success = false ∧
      (unknownToolEnvelope name).message = none) ∧
    (registryHas name = true →
      ((executeTool store name args).2.message).isSome = true) ∧
    (∀ e, (toolFailedEnvelope name e).success = false ∧
      ((toolFailedEnvelope name e).message).isSome = true) ∧
    (name = "add_task".data → ∀ e, validateAddTask args = .error e →
      executeTool store name args = (store, toolFailedEnvelope name e)) ∧
    (name = "list_tasks".data → ∀ e, validateListTasks args = .error e →
      executeTool store name args = (store, toolFailedEnvelope name e)) ∧
    (name = "complete_task".data → ∀ e, validateCompleteTask args = .error e →
      executeTool store name args = (store, toolFailedEnvelope name e)) ∧
    (name = "delete_task".data → ∀ e, validateDeleteTask args = .error e →
      executeTool store name args = (store, toolFailedEnvelope name e)) ∧
    (name = "update_task".data → ∀ e, validateUpdateTask args = .error e →
      executeTool store name args = (store, toolFailedEnvelope name e)) := by
  refine ⟨?_, ?_, fun e => ⟨rfl, rfl⟩, ?_, ?_, ?_, ?_, ?_⟩
  · intro h
    have h5 : ((((name == "add_task".data) = false ∧
        (name == "list_tasks".data) = false) ∧
        (name == "complete_task".data) = false) ∧
        (name == "delete_task".data) = false) ∧
        (name == "update_task".data) = false := by
      simpa [registryHas, Bool.or_eq_false_iff] using h
    obtain ⟨⟨⟨⟨h1, h2⟩, h3⟩, h4⟩, h5'⟩ := h5
    exact ⟨by simp [executeTool, h1, h2, h3, h4, h5'], rfl, rfl⟩
  · intro hr
    unfold executeTool
    cases h1 : name == "add_task".data with
    | true =>
      rw [if_pos rfl]
      cases hv : validateAddTask args with
      | error e => rfl
      | ok p => simp [add_task]
    | false =>
      simp only [Bool.false_eq_true, if_false]
      cases h2 : name == "list_tasks".data with
      | true =>
        rw [if_pos rfl]
        cases hv : validateListTasks args with
        | error e => rfl
        | ok p => simp [list_tasks_tool]
      | false =>
        simp only [Bool.false_eq_true, if_false]
        cases h3 : name == "complete_task".data with
        | true =>
          rw [if_pos rfl]
          cases hv : validateCompleteTask args with
          | error e => rfl
          | ok p => exact complete_tool_message_isSome store p
        | false =>
          simp only [Bool.false_eq_true, if_false]
          cases h4 : name == "delete_task".data with
          | true =>
            rw [if_pos rfl]
            cases hv : validateDeleteTask args with
            | error e => rfl
            | ok p => exact delete_tool_message_isSome store p
          | false =>
            simp only [Bool.false_eq_true, if_false]
            cases h5 : name == "update_task".data with
            | true =>
              rw [if_pos rfl]
              cases hv : validateUpdateTask args with
              | error e => rfl
              | ok p => exact update_tool_message_isSome store p
            | false =>
              exfalso
              unfold registryHas at hr
              rw [h1, h2, h3, h4, h5] at hr
              simp at hr
  · intro hn e hv
    subst hn
    simp [executeTool, hv]
  · intro hn e hv
    subst hn
    have g1 : ("list_tasks".data == "add_task".data) = false := by decide
    simp [executeTool, g1, hv]
  · intro hn e hv
    subst hn
    have g1 : ("complete_task".data == "add_task".data) = false := by decide
    have g2 : ("complete_task".data == "list_tasks".data) = false := by decide
    simp [executeTool, g1, g2, hv]
  · intro hn e hv
    subst hn
    have g1 : ("delete_task".data == "add_task".data) = false := by decide
    have g2 : ("delete_task".data == "list_tasks".data) = false := by decide
    have g3 : ("delete_task".data == "complete_task".data) = false := by decide
    simp [executeTool, g1, g2, g3, hv]
  · intro hn e hv
    subst hn
    have g1 : ("update_task".data == "add_task".data) = false := by decide
    have g2 : ("update_task".data == "list_tasks".data) = false := by decide
    have g3 : ("update_task".data == "complete_task".data) = false := by decide
    have g4 : ("update_task".data == "delete_task".data) = false := by decide
    simp [executeTool, g1, g2, g3, g4, hv]

/-- Witness for the amended C4: an unregistered name yields the
message-less failure envelope; a registered name with invalid arguments
yields the validation-failure envelope, which does carry a message. -/
theorem c4_execute_returns_envelope_witness :
    registryHas "frobnicate".data = false ∧
    executeTool emptyStore "frobnicate".data [] =
      (emptyStore, unknownToolEnvelope "frobnicate".data) ∧
    registryHas "complete_task".data = true ∧
    ((executeTool emptyStore "complete_task".data []).2.message).isSome = true := by
  refine ⟨by decide, ((c4_execute_returns_envelope emptyStore "frobnicate".data
    []).1 (by decide)).1, by decide,
    (c4_execute_returns_envelope emptyStore "complete_task".data []).2.1
      (by decide)⟩

theorem runToolCalls_snd_append (uid : Nat) (calls : List ToolCallReq) :
    ∀ (store : Store) (log : List LogEntry),
      (runToolCalls uid store calls log).2 =
        log ++ (runToolCalls uid store calls []).2 := by
  induction calls with
  | nil => intro store log; simp [runToolCalls]
  | cons c rest ih =>
    intro store log
    rcases hx : executeTool store c.name (inject_user_id c.arguments uid)
      with ⟨s', env⟩
    simp only [runToolCalls, hx]
    set e : LogEntry :=
      { tool := c.name, arguments := inject_user_id c.arguments uid
        result := env } with he
    rw [ih s' (log ++ [e]), ih s' ([] ++ [e])]
    simp

theorem chatAux_iterations_le (model : Nat → ModelResp) (uid : Nat) :
    ∀ (fuel iters : Nat) (store : Store) (log : List LogEntry),
      (chatAux model uid fuel iters store log).1.iterations ≤ iters + fuel := by
  intro fuel
  induction fuel with
  | zero => intro iters store log; simp [chatAux]
  | succ n ih =>
    intro iters store log
    simp only [chatAux]
    cases model iters with
    | failure e => simp
    | reply content cs =>
      cases hc : cs.isEmpty with
      | true => simp only [hc, if_pos rfl]; simp
      | false =>
        simp only [hc, Bool.false_eq_true, if_false]
        rcases hrun : runToolCalls uid store cs log with ⟨s', log'⟩
        dsimp only
        have := ih (iters + 1) s' log'
        omega

theorem chatAux_log_prefix (model : Nat → ModelResp) (uid : Nat) :
    ∀ (fuel iters : Nat) (store : Store) (log : List LogEntry),
      ∃ ext, (chatAux model uid fuel iters store log).1.tool_calls =
        optLog (log ++ ext) := by
  intro fuel
  induction fuel with
  | zero => intro iters store log; exact ⟨[], by simp [chatAux]⟩
  | succ n ih =>
    intro iters store log
    simp only [chatAux]
    cases model iters with
    | failure e => exact ⟨[], by simp⟩
    | reply content cs =>
      cases hc : cs.isEmpty with
      | true => exact ⟨[], by simp [hc, if_pos rfl]⟩
      | false =>
        simp only [hc, Bool.false_eq_true, if_false]
        rcases hrun : runToolCalls uid store cs log with ⟨s', log'⟩
        dsimp only
        obtain ⟨ext, hext⟩ := ih (iters + 1) s' log'
        have hl : log' = log ++ (runToolCalls uid store cs []).2 := by
          have := runToolCalls_snd_append uid cs store log
          rw [hrun] at this
          exact this
        exact ⟨(runToolCalls uid store cs []).2 ++ ext, by
          rw [hext, hl, List.append_assoc]⟩

theorem chatAux_cap (model : Nat → ModelResp) (uid : Nat) :
    ∀ (fuel iters : Nat) (store : Store) (log : List LogEntry),
      (∀ n, iters ≤ n → n < iters + fuel → toolRequests (model n) ≠ []) →
      (chatAux model uid fuel iters store log).1.assistant_message =
        apologyText ∧
      (chatAux model uid fuel iters store log).1.iterations = iters + fuel ∧
      (chatAux model uid fuel iters store log).1.error =
        some "Max iterations reached".data := by
  intro fuel
  induction fuel with
  | zero => intro iters store log _; simp [chatAux]
  | succ n ih =>
    intro iters store log h
    have hm := h iters (Nat.le_refl _) (by omega)
    simp only [chatAux]
    cases hmod : model iters with
    | failure e => rw [hmod] at hm; simp [toolRequests] at hm
    | reply content cs =>
      rw [hmod] at hm
      have hne : cs.isEmpty = false := by
        cases cs with
        | nil => simp [toolRequests] at hm
        | cons a l => rfl
      simp only [hne, Bool.false_eq_true, if_false]
      rcases hrun : runToolCalls uid store cs log with ⟨s', log'⟩
      dsimp only
      have hrec := ih (iters + 1) s' log'
        (fun m hm1 hm2 => h m (by omega) (by omega))
      refine ⟨hrec.1, ?_, hrec.2.2⟩
      rw [hrec.2.1]
      omega

/-- C5: the agent loop performs at most `max_iterations` model round-trips;
whenever the model keeps requesting tools on every available round, the
loop stops after exactly `max_iterations` rounds with the fixed apology and
the `Max iterations reached` error, returning the whole accumulated
tool-call log (entries gathered so far are never dropped); concretely, a
mocked model that always requests one `list_tasks` call hits the default
cap of 5 with five identical ordered log entries. -/
theorem c5_iteration_cap (model : Nat → ModelResp) (uid : Nat)
    (store : Store) (maxIter : Nat) :
    ((chat model uid store maxIter).1.iterations ≤ maxIter) ∧
    ((∀ n, n < maxIter → toolRequests (model n) ≠ []) →
      (chat model uid store maxIter).1.assistant_message = apologyText ∧
      (chat model uid store maxIter).1.iterations = maxIter ∧
      (chat model uid store maxIter).1.error =
        some "Max iterations reached".data) ∧
    (∀ (fuel iters : Nat) (store2 : Store) (log : List LogEntry),
      ∃ ext, (chatAux model uid fuel iters store2 log).1.tool_calls =
        optLog (log ++ ext)) ∧
    ((chat alwaysToolModel 1 emptyStore 5).1 =
      { assistant_message := apologyText
        tool_calls := some (List.replicate 5
          { tool := "list_tasks".data
            arguments := [("user_id".data, JVal.jint 1)]
            result :=
              { success := true, tasks := some [], total := some 0
                count := some 0
                message := some "Found 0 all task(s)".data } })
        iterations := 5
        error := some "Max iterations reached".data }) := by
  refine ⟨?_, ?_, chatAux_log_prefix model uid, by decide⟩
  · have := chatAux_iterations_le model uid maxIter 0 store []
    simpa [chat] using this
  · intro h
    have := chatAux_cap model uid maxIter 0 store []
      (fun n _ hn => h n (by omega))
    simpa [chat] using this

/-- Witness for C5 with the always-tool-requesting oracle at cap 5. -/
theorem c5_iteration_cap_witness :
    (chat alwaysToolModel 1 emptyStore 5).1.assistant_message = apologyText ∧
    (chat alwaysToolModel 1 emptyStore 5).1.iterations = 5 := by
  have h := (c5_iteration_cap alwaysToolModel 1 emptyStore 5).2.1
    (fun n _ => by simp [alwaysToolModel, toolRequests])
  exact ⟨h.1, h.2.1⟩

theorem insertionSort_desc_eq_reverse_asc (F : List ConversationMessage)
    (hdist : F.Pairwise (fun a b => a.created_at ≠ b.created_at)) :
    List.insertionSort (fun a b => b.created_at ≤ a.created_at) F =
      (List.insertionSort (fun a b => a.created_at ≤ b.created_at) F).reverse := by
  have hdesc_sorted : List.Sorted
      (fun a b : ConversationMessage => b.created_at ≤ a.created_at)
      (List.insertionSort (fun a b => b.created_at ≤ a.created_at) F) :=
    @List.sorted_insertionSort _
      (fun a b : ConversationMessage => b.created_at ≤ a.created_at) _
      ⟨fun a b => Nat.le_total b.created_at a.created_at⟩
      ⟨fun a b c h1 h2 => Nat.le_trans h2 h1⟩ F
  have hasc_sorted : List.Sorted
      (fun a b : ConversationMessage => a.created_at ≤ b.created_at)
      (List.insertionSort (fun a b => a.created_at ≤ b.created_at) F) :=
    @List.sorted_insertionSort _
      (fun a b : ConversationMessage => a.created_at ≤ b.created_at) _
      ⟨fun a b => Nat.le_total a.created_at b.created_at⟩
      ⟨fun a b c h1 h2 => Nat.le_trans h1 h2⟩ F
  have hdesc_ne : (List.insertionSort
      (fun a b : ConversationMessage => b.created_at ≤ a.created_at) F).Pairwise
      (fun a b => a.created_at ≠ b.created_at) :=
    ((List.perm_insertionSort _ F).pairwise_iff
      (fun h => Ne.symm h)).mpr hdist
  have hasc_ne : (List.insertionSort
      (fun a b : ConversationMessage => a.created_at ≤ b.created_at) F).Pairwise
      (fun a b => a.created_at ≠ b.created_at) :=
    ((List.perm_insertionSort _ F).pairwise_iff
      (fun h => Ne.symm h)).mpr hdist
  have h1 : (List.insertionSort
      (fun a b : ConversationMessage => b.created_at ≤ a.created_at) F).Pairwise
      (fun a b => b.created_at ≤ a.created_at ∧ a.created_at ≠ b.created_at) :=
    List.Pairwise.and hdesc_sorted hdesc_ne
  have h2 : ((List.insertionSort
      (fun a b : ConversationMessage => a.created_at ≤ b.created_at) F).reverse).Pairwise
      (fun a b => b.created_at ≤ a.created_at ∧ a.created_at ≠ b.created_at) := by
    rw [List.pairwise_reverse]
    exact (List.Pairwise.and hasc_sorted hasc_ne).imp
      (fun h => ⟨h.1, Ne.symm h.2⟩)
  have hperm : (List.insertionSort
      (fun a b : ConversationMessage => b.created_at ≤ a.created_at) F).Perm
      ((List.insertionSort
        (fun a b : ConversationMessage => a.created_at ≤ b.created_at) F).reverse) :=
    (List.perm_insertionSort _ F).trans
      (((List.reverse_perm _).trans (List.perm_insertionSort _ F)).symm)
  exact @List.eq_of_perm_of_sorted _
    (fun a b : ConversationMessage =>
      b.created_at ≤ a.created_at ∧ a.created_at ≠ b.created_at)
    ⟨fun a b hab hba => ((hab.2 (Nat.le_antisymm hba.1 hab.1)).elim)⟩
    _ _ hperm h1 h2

/-- C6: with pairwise-distinct creation times, loading conversation history
returns exactly the suffix of the chronologically sorted turns past the
truncation point — at most `limit` turns, the most recent ones,
oldest-first — and with the 25-turn fixture and limit 20 it returns exactly
turns 6..25 in order. -/
theorem c6_sliding_window (msgs : List ConversationMessage) (cid limit : Nat)
    (hdist : (msgs.filter (fun m => m.conversation_id == cid)).Pairwise
      (fun a b => a.created_at ≠ b.created_at)) :
    get_conversation_history msgs cid limit =
      (List.insertionSort (fun a b => a.created_at ≤ b.created_at)
        (msgs.filter (fun m => m.conversation_id == cid))).drop
        ((msgs.filter (fun m => m.conversation_id == cid)).length - limit) ∧
    (get_conversation_history msgs cid limit).length ≤ limit ∧
    (get_conversation_history msgs cid limit).Pairwise
      (fun a b => a.created_at ≤ b.created_at) ∧
    get_conversation_history convMessages 1 20 = convMessages.drop 5 := by
  have hmain : get_conversation_history msgs cid limit =
      (List.insertionSort (fun a b => a.created_at ≤ b.created_at)
        (msgs.filter (fun m => m.conversation_id == cid))).drop
        ((msgs.filter (fun m => m.conversation_id == cid)).length - limit) := by
    unfold get_conversation_history
    rw [insertionSort_desc_eq_reverse_asc _ hdist]
    rw [List.reverse_take, List.reverse_reverse, List.length_reverse,
      List.length_insertionSort]
  have hasc_sorted : List.Sorted
      (fun a b : ConversationMessage => a.created_at ≤ b.created_at)
      (List.insertionSort (fun a b => a.created_at ≤ b.created_at)
        (msgs.filter (fun m => m.conversation_id == cid))) :=
    @List.sorted_insertionSort _
      (fun a b : ConversationMessage => a.created_at ≤ b.created_at) _
      ⟨fun a b => Nat.le_total a.created_at b.created_at⟩
      ⟨fun a b c h1 h2 => Nat.le_trans h1 h2⟩ _
  refine ⟨hmain, ?_, ?_, by decide⟩
  · unfold get_conversation_history
    simp [List.length_take]
  · rw [hmain]
    exact List.Pairwise.sublist (List.drop_sublist _ _) hasc_sorted

/-- Witness for C6 at the 25-turn fixture with limit 20. -/
theorem c6_sliding_window_witness :
    (convMessages.filter (fun m => m.conversation_id == 1)).Pairwise
      (fun a b => a.created_at ≠ b.created_at) ∧
    get_conversation_history convMessages 1 20 =
      (List.insertionSort (fun a b => a.created_at ≤ b.created_at)
        (convMessages.filter (fun m => m.conversation_id == 1))).drop
        ((convMessages.filter (fun m => m.conversation_id == 1)).length - 20) :=
  ⟨by decide, (c6_sliding_window convMessages 1 20 (by decide)).1⟩

end Todo


